import Mathlib

/-!
Shallow embedding of the DC-dog-dashboard pipeline (src/app.py and
src/DC/app.py): file decoding (`parse_contents`), column normalization and
inference, the traffic-signal classifier (`get_indicator`), summary cards and
figure selection from the `update_dashboard` callback.  Python floats carrying
NaN are modelled by `PyFloat` (rationals plus a NaN that fails every
comparison); pandas readers are abstract parameters (`Env`), since only their
success/raise behaviour reaches the code under scrutiny.
-/

namespace DogDash

/-- A Python numeric value: a real number (modelled as a rational) or NaN.
pandas produces NaN both for missing cells and for the mean of an empty
selection. -/
inductive PyFloat where
  | num (q : ℚ)
  | nan
deriving DecidableEq, Repr

/-- Python `x <= y` on floats: any comparison involving NaN is false. -/
def pyLe : PyFloat → PyFloat → Bool
  | .num x, .num y => decide (x ≤ y)
  | _, _ => false

/-- Python `x < y` on floats: any comparison involving NaN is false. -/
def pyLt : PyFloat → PyFloat → Bool
  | .num x, .num y => decide (x < y)
  | _, _ => false

/-- Python `x >= y` on floats. -/
def pyGe (a b : PyFloat) : Bool := pyLe b a

/-- Does `s` start with `pat`? (character-list level) -/
def isPrefixOfCh : List Char → List Char → Bool
  | [], _ => true
  | _ :: _, [] => false
  | p :: ps, c :: cs => p == c && isPrefixOfCh ps cs

/-- Does `s` contain `pat` as a contiguous run? (character-list level) -/
def containsSub (pat : List Char) : List Char → Bool
  | [] => isPrefixOfCh pat []
  | c :: cs => isPrefixOfCh pat (c :: cs) || containsSub pat cs

/-- Python `pat in s` substring test. -/
def strContains (s pat : String) : Bool := containsSub pat.toList s.toList

/-- Python `s.endswith(suf)`. -/
def strEndsWith (s suf : String) : Bool :=
  isPrefixOfCh suf.toList.reverse s.toList.reverse

/-- Exceptions that `parse_contents` can raise (i.e. let escape uncaught). -/
inductive PyExc where
  | binasciiError (msg : String)
  | valueError (msg : String)
deriving DecidableEq, Repr

/-- Value of a standard base64 alphabet character, `none` for everything
else (including the pad `=`, handled separately). -/
def b64Val (c : Char) : Option Nat :=
  if 'A' ≤ c ∧ c ≤ 'Z' then some (c.toNat - 65)
  else if 'a' ≤ c ∧ c ≤ 'z' then some (c.toNat - 97 + 26)
  else if '0' ≤ c ∧ c ≤ '9' then some (c.toNat - 48 + 52)
  else if c = '+' then some 62
  else if c = '/' then some 63
  else none

/-- CPython `binascii.a2b_base64` in non-strict mode (what
`base64.b64decode` uses): characters outside the alphabet are skipped, a pad
sequence completing a quad ends decoding, and a leftover of 1 data character
(resp. 2 or 3 without pads) raises `binascii.Error`.  State: current quad
position, pending bits, count of pads seen at quad positions ≥ 2, and the
output bytes accumulated in reverse. -/
def a2bBase64 (quadPos leftchar pads : Nat) (out : List Nat) :
    List Char → Except PyExc (List Nat)
  | [] =>
    if quadPos = 0 then .ok out.reverse
    else if quadPos = 1 then
      .error (.binasciiError
        "Invalid base64-encoded string: number of data characters cannot be 1 more than a multiple of 4")
    else .error (.binasciiError "Incorrect padding")
  | c :: cs =>
    if c = '=' then
      if 2 ≤ quadPos ∧ 4 ≤ quadPos + (pads + 1) then .ok out.reverse
      else a2bBase64 quadPos leftchar (if 2 ≤ quadPos then pads + 1 else pads) out cs
    else
      match b64Val c with
      | none => a2bBase64 quadPos leftchar pads out cs
      | some v =>
        match quadPos with
        | 0 => a2bBase64 1 v 0 out cs
        | 1 => a2bBase64 2 (v % 16) 0 ((leftchar * 4 + v / 16) :: out) cs
        | 2 => a2bBase64 3 (v % 4) 0 ((leftchar * 16 + v / 4) :: out) cs
        | _ => a2bBase64 0 0 0 ((leftchar * 64 + v) :: out) cs

/-- Python `base64.b64decode` on a `str` argument: reject non-ASCII input,
then decode in non-strict mode.  Returns the decoded bytes or the raised
exception. -/
def b64decode (s : String) : Except PyExc (List Nat) :=
  if s.toList.all (fun c => c.toNat < 128) then a2bBase64 0 0 0 [] s.toList
  else .error (.valueError "string argument should contain only ASCII characters")

/-- Python string split at commas, at the character-list level: splits at every
comma, keeping empty groups (an empty input gives one empty group, as in
Python). -/
def splitCommaCh : List Char → List (List Char)
  | [] => [[]]
  | c :: cs =>
    let r := splitCommaCh cs
    if c = ',' then [] :: r
    else
      match r with
      | [] => [[c]]
      | g :: gs => (c :: g) :: gs

/-- Python string split at every comma. -/
def pySplitComma (s : String) : List String :=
  (splitCommaCh s.toList).map (fun l => String.mk l)

/-- A pandas DataFrame as used here: ordered named columns of equal-length
numeric series (missing cells are NaN). -/
structure Table where
  cols : List (String × List PyFloat)
deriving DecidableEq, Repr

/-- The environment of external readers: `read_csv` stands for
`pd.read_csv(io.StringIO(decoded.decode("utf-8")))` and `read_excel` for
`pd.read_excel(io.BytesIO(decoded))`; both run inside the `try` block, so
their failures are modelled as `Except.error` carrying the description
of the exception. -/
structure Env where
  read_csv : List Nat → Except String Table
  read_excel : List Nat → Except String Table

/-- Embedding of `parse_contents(contents, filename)` from src/app.py lines 37-49 and
src/DC/app.py lines 44-58 (the two files are identical here).  The outer
`Except PyExc` is an uncaught exception escaping the function; the inner
value is the Python return: `(df, None)` as `.ok df` or `(None, err)` as
`.error err`.  Note the unpacking `contents.split` at the comma and
`base64.b64decode` happen before the `try`, so their exceptions escape. -/
def parse_contents (env : Env) (contents filename : String) :
    Except PyExc (Except String Table) :=
  match pySplitComma contents with
  | [_content_type, content_string] =>
    match b64decode content_string with
    | .error e => .error e
    | .ok decoded =>
      if strEndsWith filename ".csv" then
        match env.read_csv decoded with
        | .ok df => .ok (.ok df)
        | .error e => .ok (.error ("⚠️ Error reading file: " ++ e))
      else if strEndsWith filename ".xls" || strEndsWith filename ".xlsx" then
        match env.read_excel decoded with
        | .ok df => .ok (.ok df)
        | .error e => .ok (.error ("⚠️ Error reading file: " ++ e))
      else .ok (.error ("❌ Unsupported file type: " ++ filename))
  | parts =>
    .error (.valueError
      (if parts.length < 2 then "not enough values to unpack (expected 2)"
       else "too many values to unpack (expected 2)"))

/-- Embedding of `df[col].mean()`: arithmetic mean of the non-NaN entries, NaN when there
are none (the default pandas skipna behaviour). -/
def seriesMean (xs : List PyFloat) : PyFloat :=
  let nums := xs.filterMap (fun v => match v with | .num q => some q | .nan => none)
  if nums.isEmpty then .nan else .num (nums.sum / (nums.length : ℚ))

/-- One summary indicator card: column label, column mean, border/status
color and status text. -/
structure Card where
  label : String
  mean : PyFloat
  color : String
  status : String
deriving DecidableEq, Repr

/-- The list `df.columns` after normalization has happened (labels only). -/
def labelsOf (df : Table) : List String := df.cols.map Prod.fst

/-- Column access `df[c]` for a label produced from `df.columns` (first matching column;
an absent label — unreachable from the call sites modelled — gives an empty
series). -/
def getCol (df : Table) (c : String) : List PyFloat :=
  match df.cols.find? (fun p => p.1 == c) with
  | some p => p.2
  | none => []

/-- Column-label normalization `[c.lower().strip() for c in df.columns]`. -/
def normalizeCols (df : Table) : Table :=
  ⟨df.cols.map (fun p => (p.1.toLower.trim, p.2))⟩

/-- Embedding of `df.head(10)`. -/
def head10 (df : Table) : Table := ⟨df.cols.map (fun p => (p.1, p.2.take 10))⟩

/-- Python truthiness of an optional string (`if lat_col and ...`): None and
the empty string are falsy. -/
def truthy : Option String → Bool
  | none => false
  | some s => !(s == "")

/-- A Dash child slot in the 4-tuple result of the callback: a plain string, the
preview DataTable, or the row of indicator cards. -/
inductive Component where
  | text (s : String)
  | dataTable (t : Table)
  | cardRow (cs : List Card)
deriving DecidableEq, Repr

/-- The figure returned by the callback: `px.scatter()` (blank), a
`px.line` time-series (with optional x column), or the animated
`px.scatter_mapbox` with its per-row `(signal_color, signal_status)` tags. -/
inductive Fig where
  | scatter
  | line (x : Option String) (ys : List String)
  | scatterMapbox (lat lon time colorCol : String) (rowTags : List (String × String))
deriving DecidableEq, Repr

/-- Is the figure the animated map? -/
def Fig.isMapbox : Fig → Bool
  | .scatterMapbox _ _ _ _ _ => true
  | _ => false

namespace App

/-- Embedding of `get_indicator(param, value)` from src/app.py lines 53-66.  The heart
group tests only "heart" and "hr"; the oxygen group only "spo2" and
"oxygen". -/
def get_indicator (param : String) (value : PyFloat) : String × String :=
  if strContains param "temp" then
    if pyLe (.num 36) value && pyLe value (.num 37.5) then ("green", "Normal")
    else if pyLt (.num 37.5) value && pyLe value (.num 38.5) then ("orange", "Caution")
    else ("red", "Critical")
  else if strContains param "heart" || strContains param "hr" then
    if pyLe (.num 60) value && pyLe value (.num 100) then ("green", "Normal")
    else if (pyLt (.num 100) value && pyLe value (.num 120))
         || (pyLe (.num 50) value && pyLt value (.num 60)) then ("orange", "Caution")
    else ("red", "Critical")
  else if strContains param "spo2" || strContains param "oxygen" then
    if pyGe value (.num 95) then ("green", "Normal")
    else if pyLe (.num 90) value && pyLt value (.num 95) then ("orange", "Caution")
    else ("red", "Critical")
  else ("gray", "Unknown")

/-- The keyword list of the card loop, src/app.py line 101. -/
def cardKw : List String := ["temp", "heart", "hr", "spo2", "oxygen"]

/-- The indicator-card loop, src/app.py lines 99-114: one card per column
whose label contains a keyword, built from the column mean. -/
def buildCards (df : Table) : List Card :=
  (df.cols.filter (fun col => cardKw.any (fun x => strContains col.1 x))).map
    (fun col =>
      let m := seriesMean col.2
      let cs := get_indicator col.1 m
      ⟨col.1, m, cs.1, cs.2⟩)

/-- Time-column sniffing, src/app.py line 117. -/
def inferTime (labels : List String) : Option String :=
  labels.find? (fun c => strContains c "time" || strContains c "timestamp")

/-- Figure selection, src/app.py lines 117-121: a time-series line plot,
against the sniffed time column when one is truthy. -/
def buildFig (df : Table) : Fig :=
  let time_col := inferTime (labelsOf df)
  let y_cols := (labelsOf df).filter (fun c => !(some c == time_col))
  if truthy time_col then .line time_col y_cols else .line none y_cols

/-- Embedding of `update_dashboard(contents, filename)` from src/app.py lines 78-123.
The outer `Except PyExc` is an exception escaping the callback body. -/
def update_dashboard (env : Env) (contents : Option String) (filename : String) :
    Except PyExc (Component × Component × Component × Fig) :=
  match contents with
  | none => .ok (.text "", .text "", .text "", .scatter)
  | some c =>
    match parse_contents env c filename with
    | .error exc => .error exc
    | .ok (.error err) => .ok (.text err, .text "", .text "", .scatter)
    | .ok (.ok df0) =>
      let df := normalizeCols df0
      .ok (.text ("✅ Uploaded: " ++ filename),
           .dataTable (head10 df),
           .cardRow (buildCards df),
           buildFig df)

end App

namespace DC

/-- Embedding of `get_indicator(param, value)` from src/DC/app.py lines 64-80.  The heart
group also tests "bpm" and "pulse"; the oxygen group also tests "o2". -/
def get_indicator (param : String) (value : PyFloat) : String × String :=
  if strContains param "temp" then
    if pyLe (.num 36) value && pyLe value (.num 37.5) then ("green", "Normal")
    else if pyLt (.num 37.5) value && pyLe value (.num 38.5) then ("orange", "Caution")
    else ("red", "Critical")
  else if strContains param "heart" || strContains param "hr"
       || strContains param "bpm" || strContains param "pulse" then
    if pyLe (.num 60) value && pyLe value (.num 100) then ("green", "Normal")
    else if (pyLt (.num 100) value && pyLe value (.num 120))
         || (pyLe (.num 50) value && pyLt value (.num 60)) then ("orange", "Caution")
    else ("red", "Critical")
  else if strContains param "spo2" || strContains param "oxygen"
       || strContains param "o2" then
    if pyGe value (.num 95) then ("green", "Normal")
    else if pyLe (.num 90) value && pyLt value (.num 95) then ("orange", "Caution")
    else ("red", "Critical")
  else ("gray", "Unknown")

/-- The keyword list of the card loop, src/DC/app.py line 116. -/
def cardKw : List String := ["temp", "heart", "hr", "spo2", "oxygen", "o2", "pulse", "bpm"]

/-- The indicator-card loop, src/DC/app.py lines 114-129. -/
def buildCards (df : Table) : List Card :=
  (df.cols.filter (fun col => cardKw.any (fun x => strContains col.1 x))).map
    (fun col =>
      let m := seriesMean col.2
      let cs := get_indicator col.1 m
      ⟨col.1, m, cs.1, cs.2⟩)

/-- Predicate of the time-column generator expression, src/DC/app.py
line 133. -/
def timePred (c : String) : Bool := strContains c "time" || strContains c "timestamp"

/-- Predicate of the latitude lookup, membership in the list of "lat" and "latitude", line 134. -/
def latPred (c : String) : Bool := (["lat", "latitude"] : List String).contains c

/-- Predicate of the longitude lookup, line 135. -/
def lonPred (c : String) : Bool :=
  (["lon", "long", "longitude", "lng"] : List String).contains c

/-- The keyword list of the physiological-column filter, line 138. -/
def mapKw : List String := ["temp", "heart", "hr", "spo2", "oxygen", "o2", "bpm", "pulse"]

/-- Predicate of the physiological-column filter, line 138. -/
def paramPred (c : String) : Bool := mapKw.any (fun x => strContains c x)

/-- The lookup: time_col is the first column label containing "time" or "timestamp", else None. -/
def inferTime (labels : List String) : Option String := labels.find? timePred

/-- The lookup: lat_col is the first column label equal to "lat" or "latitude", else None. -/
def inferLat (labels : List String) : Option String := labels.find? latPred

/-- The lookup: lon_col is the first column label in the longitude list, else None. -/
def inferLon (labels : List String) : Option String := labels.find? lonPred

/-- The list comprehension: param_cols keeps the column labels containing any map keyword. -/
def inferParams (labels : List String) : List String := labels.filter paramPred

/-- The selection: color_col is the first parameter column if any, else None. -/
def primaryParam (labels : List String) : Option String := (inferParams labels).head?

/-- Figure selection, src/DC/app.py lines 131-206: the animated map when the
four inferred columns are all truthy (each row tagged by classifying its own
raw value in the primary parameter column), otherwise the time-series
fallback. -/
def buildFig (df : Table) : Fig :=
  let time_col := inferTime (labelsOf df)
  let lat_col := inferLat (labelsOf df)
  let lon_col := inferLon (labelsOf df)
  let color_col := primaryParam (labelsOf df)
  if truthy lat_col && truthy lon_col && truthy time_col && truthy color_col then
    let co := color_col.getD ""
    .scatterMapbox (lat_col.getD "") (lon_col.getD "") (time_col.getD "") co
      ((getCol df co).map (fun v => get_indicator co v))
  else
    let y_cols := (labelsOf df).filter (fun c => !(some c == time_col))
    if truthy time_col then .line time_col y_cols else .line none y_cols

/-- Embedding of `update_dashboard(contents, filename)` from src/DC/app.py lines 93-213. -/
def update_dashboard (env : Env) (contents : Option String) (filename : String) :
    Except PyExc (Component × Component × Component × Fig) :=
  match contents with
  | none => .ok (.text "", .text "", .text "", .scatter)
  | some c =>
    match parse_contents env c filename with
    | .error exc => .error exc
    | .ok (.error err) => .ok (.text err, .text "", .text "", .scatter)
    | .ok (.ok df0) =>
      let df := normalizeCols df0
      .ok (.text ("✅ Uploaded: " ++ filename),
           .dataTable (head10 df),
           .cardRow (buildCards df),
           buildFig df)

end DC

/-- The four result pairs `get_indicator` can produce. -/
def resultPairs : List (String × String) :=
  [("green", "Normal"), ("orange", "Caution"), ("red", "Critical"), ("gray", "Unknown")]

/-- An environment whose readers always raise, with description
"parse failure". -/
def envFail : Env :=
  ⟨fun _ => .error "parse failure", fun _ => .error "parse failure"⟩

/-- The 3-row GPS table of the end-to-end example of the spec (already
normalized labels): heart_rate values 65, 105, 45. -/
def gpsTable : Table :=
  ⟨[("time", [.num 1, .num 2, .num 3]),
    ("lat", [.num 10, .num 10, .num 10]),
    ("lon", [.num 20, .num 20, .num 20]),
    ("heart_rate", [.num 65, .num 105, .num 45])]⟩

/-- Comparisons against NaN are false (right argument). -/
theorem pyLe_nan_right (a : PyFloat) : pyLe a PyFloat.nan = false := by cases a <;> rfl

/-- Comparisons against NaN are false (left argument). -/
theorem pyLe_nan_left (a : PyFloat) : pyLe PyFloat.nan a = false := by cases a <;> rfl

/-- Strict comparisons against NaN are false (right argument). -/
theorem pyLt_nan_right (a : PyFloat) : pyLt a PyFloat.nan = false := by cases a <;> rfl

/-- Strict comparisons against NaN are false (left argument). -/
theorem pyLt_nan_left (a : PyFloat) : pyLt PyFloat.nan a = false := by cases a <;> rfl

/-- C5: for every label containing "temp" (both variants agree), the
classifier returns Normal on [36, 37.5], Caution on (37.5, 38.5], Critical
otherwise, with exact boundary comparisons. -/
theorem C5_temp_thresholds (label : String) (v : ℚ)
    (h : strContains label "temp" = true) :
    App.get_indicator label (.num v) = DC.get_indicator label (.num v)
    ∧ (36 ≤ v ∧ v ≤ 37.5 → DC.get_indicator label (.num v) = ("green", "Normal"))
    ∧ (37.5 < v ∧ v ≤ 38.5 → DC.get_indicator label (.num v) = ("orange", "Caution"))
    ∧ (v < 36 ∨ 38.5 < v → DC.get_indicator label (.num v) = ("red", "Critical")) := by
  have e : DC.get_indicator label (.num v) =
      (if 36 ≤ v ∧ v ≤ 37.5 then ("green", "Normal")
       else if 37.5 < v ∧ v ≤ 38.5 then ("orange", "Caution")
       else ("red", "Critical")) := by
    simp [DC.get_indicator, h, pyLe, pyLt]
  have eA : App.get_indicator label (.num v) = DC.get_indicator label (.num v) := by
    rw [e]; simp [App.get_indicator, h, pyLe, pyLt]
  refine ⟨eA, fun hv => ?_, fun hv => ?_, fun hv => ?_⟩
  · rw [e, if_pos hv]
  · rw [e, if_neg (by rintro ⟨-, hb⟩; linarith [hv.1]), if_pos hv]
  · rw [e, if_neg, if_neg]
    · rintro ⟨ha, hb⟩; rcases hv with hv | hv <;> linarith
    · rintro ⟨ha, hb⟩; rcases hv with hv | hv <;> linarith

/-- C5 witness: the boundary instances, via `C5_temp_thresholds`. -/
theorem C5_witness :
    DC.get_indicator "temp" (.num 37.5) = ("green", "Normal")
    ∧ DC.get_indicator "temp" (.num 37.51) = ("orange", "Caution")
    ∧ App.get_indicator "temp" (.num 37.5) = ("green", "Normal") := by
  have h1 := C5_temp_thresholds "temp" 37.5 (by decide)
  have h2 := C5_temp_thresholds "temp" 37.51 (by decide)
  refine ⟨h1.2.1 ⟨by norm_num, by norm_num⟩, h2.2.2.1 ⟨by norm_num, by norm_num⟩, ?_⟩
  rw [h1.1]; exact h1.2.1 ⟨by norm_num, by norm_num⟩

/-- C9: a label matching no keyword of any group yields gray/Unknown in both
variants, for every value. -/
theorem C9_unknown (label : String) (v : PyFloat)
    (h1 : strContains label "temp" = false)
    (h2 : strContains label "heart" = false)
    (h3 : strContains label "hr" = false)
    (h4 : strContains label "bpm" = false)
    (h5 : strContains label "pulse" = false)
    (h6 : strContains label "spo2" = false)
    (h7 : strContains label "oxygen" = false)
    (h8 : strContains label "o2" = false) :
    App.get_indicator label v = ("gray", "Unknown")
    ∧ DC.get_indicator label v = ("gray", "Unknown") := by
  constructor <;>
    simp [App.get_indicator, DC.get_indicator, h1, h2, h3, h4, h5, h6, h7, h8]

/-- C9 witness: `classify("humidity", 50)` is Unknown in both variants. -/
theorem C9_witness :
    App.get_indicator "humidity" (.num 50) = ("gray", "Unknown")
    ∧ DC.get_indicator "humidity" (.num 50) = ("gray", "Unknown") :=
  C9_unknown "humidity" (.num 50) (by decide) (by decide) (by decide) (by decide)
    (by decide) (by decide) (by decide) (by decide)

/-- C10: both `get_indicator` variants are total over labels and values
(NaN included) and always return one of the four fixed color/status pairs,
so color and status always correspond. -/
theorem C10_get_indicator_total (label : String) (v : PyFloat) :
    App.get_indicator label v ∈ resultPairs ∧ DC.get_indicator label v ∈ resultPairs := by
  constructor
  · unfold App.get_indicator
    split_ifs <;> simp [resultPairs]
  · unfold DC.get_indicator
    split_ifs <;> simp [resultPairs]

/-- C3 counterexample: in the src/app.py variant the oxygen group tests only
"spo2" and "oxygen", so the label "o2" (which matches no group there) falls
through to gray/Unknown instead of Normal at value 95. -/
theorem C3_counterexample :
    App.get_indicator "o2" (.num 95) = ("gray", "Unknown")
    ∧ App.get_indicator "o2" (.num 95) ≠ ("green", "Normal") := by
  exact ⟨by decide, by decide⟩

/-- C3 amended: the claimed oxygen thresholds hold in the src/DC/app.py
variant for all three keywords; the src/app.py variant agrees whenever the
label contains "spo2" or "oxygen" (its own keyword set). -/
theorem C3_amended_spo2 (label : String) (v : ℚ)
    (hs : strContains label "spo2" = true ∨ strContains label "oxygen" = true
          ∨ strContains label "o2" = true)
    (h1 : strContains label "temp" = false)
    (h2 : strContains label "heart" = false)
    (h3 : strContains label "hr" = false)
    (h4 : strContains label "bpm" = false)
    (h5 : strContains label "pulse" = false) :
    (95 ≤ v → DC.get_indicator label (.num v) = ("green", "Normal"))
    ∧ (90 ≤ v ∧ v < 95 → DC.get_indicator label (.num v) = ("orange", "Caution"))
    ∧ (v < 90 → DC.get_indicator label (.num v) = ("red", "Critical"))
    ∧ (strContains label "spo2" = true ∨ strContains label "oxygen" = true →
        App.get_indicator label (.num v) = DC.get_indicator label (.num v)) := by
  have hcond : (strContains label "spo2" || strContains label "oxygen"
      || strContains label "o2") = true := by
    rcases hs with h | h | h <;> simp [h]
  have e : DC.get_indicator label (.num v) =
      (if 95 ≤ v then ("green", "Normal")
       else if 90 ≤ v ∧ v < 95 then ("orange", "Caution")
       else ("red", "Critical")) := by
    simp [DC.get_indicator, h1, h2, h3, h4, h5, hcond, pyGe, pyLe, pyLt]
  refine ⟨fun hv => ?_, fun hv => ?_, fun hv => ?_, fun hso => ?_⟩
  · rw [e, if_pos hv]
  · rw [e, if_neg (by linarith [hv.2]), if_pos hv]
  · rw [e, if_neg (by linarith), if_neg (by rintro ⟨h9, -⟩; linarith)]
  · have hcond' : (strContains label "spo2" || strContains label "oxygen") = true := by
      rcases hso with h | h <;> simp [h]
    rw [e]
    simp [App.get_indicator, h1, h2, h3, hcond', pyGe, pyLe, pyLt]

/-- C3 witness: the spo2 boundary instances, via `C3_amended_spo2`. -/
theorem C3_witness :
    DC.get_indicator "spo2" (.num 95) = ("green", "Normal")
    ∧ DC.get_indicator "spo2" (.num (949/10)) = ("orange", "Caution")
    ∧ DC.get_indicator "spo2" (.num (899/10)) = ("red", "Critical")
    ∧ App.get_indicator "spo2" (.num 95) = ("green", "Normal") := by
  have hs : strContains "spo2" "spo2" = true ∨ strContains "spo2" "oxygen" = true
      ∨ strContains "spo2" "o2" = true := Or.inl (by decide)
  have h95 := C3_amended_spo2 "spo2" 95 hs (by decide) (by decide) (by decide)
    (by decide) (by decide)
  have h949 := C3_amended_spo2 "spo2" (949/10) hs (by decide) (by decide) (by decide)
    (by decide) (by decide)
  have h899 := C3_amended_spo2 "spo2" (899/10) hs (by decide) (by decide) (by decide)
    (by decide) (by decide)
  refine ⟨h95.1 (by norm_num), h949.2.1 ⟨by norm_num, by norm_num⟩,
    h899.2.2.1 (by norm_num), ?_⟩
  rw [h95.2.2.2 (Or.inl (by decide))]; exact h95.1 (by norm_num)

/-- C4 counterexample: in the src/app.py variant the heart group tests only
"heart" and "hr", so the label "bpm" (which matches no group there) falls
through to gray/Unknown instead of Normal at value 80. -/
theorem C4_counterexample :
    App.get_indicator "bpm" (.num 80) = ("gray", "Unknown")
    ∧ App.get_indicator "bpm" (.num 80) ≠ ("green", "Normal") := by
  exact ⟨by decide, by decide⟩

/-- C4 amended: the claimed heart-rate thresholds hold in the src/DC/app.py
variant for all four keywords; the src/app.py variant agrees whenever the
label contains "heart" or "hr" (its own keyword set). -/
theorem C4_amended_heart (label : String) (v : ℚ)
    (hs : strContains label "heart" = true ∨ strContains label "hr" = true
          ∨ strContains label "bpm" = true ∨ strContains label "pulse" = true)
    (h1 : strContains label "temp" = false) :
    (60 ≤ v ∧ v ≤ 100 → DC.get_indicator label (.num v) = ("green", "Normal"))
    ∧ ((100 < v ∧ v ≤ 120) ∨ (50 ≤ v ∧ v < 60) →
        DC.get_indicator label (.num v) = ("orange", "Caution"))
    ∧ (v < 50 ∨ 120 < v → DC.get_indicator label (.num v) = ("red", "Critical"))
    ∧ (strContains label "heart" = true ∨ strContains label "hr" = true →
        App.get_indicator label (.num v) = DC.get_indicator label (.num v)) := by
  have hcond : (strContains label "heart" || strContains label "hr"
      || strContains label "bpm" || strContains label "pulse") = true := by
    rcases hs with h | h | h | h <;> simp [h]
  have e : DC.get_indicator label (.num v) =
      (if 60 ≤ v ∧ v ≤ 100 then ("green", "Normal")
       else if (100 < v ∧ v ≤ 120) ∨ (50 ≤ v ∧ v < 60) then ("orange", "Caution")
       else ("red", "Critical")) := by
    simp [DC.get_indicator, h1, hcond, pyGe, pyLe, pyLt]
  refine ⟨fun hv => ?_, fun hv => ?_, fun hv => ?_, fun hso => ?_⟩
  · rw [e, if_pos hv]
  · rw [e, if_neg, if_pos hv]
    rintro ⟨h60, h100⟩
    rcases hv with ⟨ha, hb⟩ | ⟨ha, hb⟩ <;> linarith
  · rw [e, if_neg, if_neg]
    · rintro (⟨ha, hb⟩ | ⟨ha, hb⟩) <;> rcases hv with hv | hv <;> linarith
    · rintro ⟨ha, hb⟩; rcases hv with hv | hv <;> linarith
  · have hcond' : (strContains label "heart" || strContains label "hr") = true := by
      rcases hso with h | h <;> simp [h]
    rw [e]
    simp [App.get_indicator, h1, hcond', pyGe, pyLe, pyLt]

/-- C4 witness: the heart-rate instances of the claim, via
`C4_amended_heart`. -/
theorem C4_witness :
    DC.get_indicator "heart_rate" (.num (599/10)) = ("orange", "Caution")
    ∧ DC.get_indicator "heart_rate" (.num (499/10)) = ("red", "Critical")
    ∧ App.get_indicator "heart_rate" (.num 80) = ("green", "Normal") := by
  have hs : strContains "heart_rate" "heart" = true ∨ strContains "heart_rate" "hr" = true
      ∨ strContains "heart_rate" "bpm" = true ∨ strContains "heart_rate" "pulse" = true :=
    Or.inl (by decide)
  have h599 := C4_amended_heart "heart_rate" (599/10) hs (by decide)
  have h499 := C4_amended_heart "heart_rate" (499/10) hs (by decide)
  have h80 := C4_amended_heart "heart_rate" 80 hs (by decide)
  refine ⟨h599.2.1 (Or.inr ⟨by norm_num, by norm_num⟩), h499.2.2.1 (Or.inl (by norm_num)), ?_⟩
  rw [h80.2.2.2 (Or.inl (by decide))]; exact h80.1 ⟨by norm_num, by norm_num⟩

/-- C2 counterexample: a parameter column whose values are all missing gets
mean NaN and, since NaN fails every range check, a card classified Critical —
in both variants the summary card carries the classified tier "Critical" and
no "no data" condition. -/
theorem C2_counterexample :
    DC.buildCards ⟨[("temp", [PyFloat.nan])]⟩ = [⟨"temp", PyFloat.nan, "red", "Critical"⟩]
    ∧ App.buildCards ⟨[("temp", [PyFloat.nan])]⟩ = [⟨"temp", PyFloat.nan, "red", "Critical"⟩]
    ∧ PyFloat.nan ≠ PyFloat.num 0 := by
  exact ⟨by decide, by decide, by decide⟩

/-- C2 amended: for a parameter-matching column whose values are all missing,
the mean is NaN (not 0) and the pipeline does not crash, but instead of a
"no data" condition the card carries the classified tier Critical, because
NaN fails every threshold comparison. -/
theorem C2_amended_allmissing (label : String) (vs : List PyFloat)
    (hall : ∀ v ∈ vs, v = PyFloat.nan)
    (hkwD : DC.cardKw.any (fun x => strContains label x) = true)
    (hkwA : App.cardKw.any (fun x => strContains label x) = true) :
    seriesMean vs = PyFloat.nan
    ∧ DC.buildCards ⟨[(label, vs)]⟩ = [⟨label, PyFloat.nan, "red", "Critical"⟩]
    ∧ App.buildCards ⟨[(label, vs)]⟩ = [⟨label, PyFloat.nan, "red", "Critical"⟩]
    ∧ PyFloat.nan ≠ PyFloat.num 0 := by
  have hm : seriesMean vs = PyFloat.nan := by
    have hnil : vs.filterMap
        (fun v => match v with | .num q => some q | .nan => none) = [] :=
      List.filterMap_eq_nil_iff.mpr (fun a ha => by rw [hall a ha])
    simp [seriesMean, hnil]
  have hgD : DC.get_indicator label PyFloat.nan = ("red", "Critical") := by
    have hd := hkwD
    simp only [DC.cardKw, List.any_cons, List.any_nil, Bool.or_false,
      Bool.or_eq_true] at hd
    simp only [DC.get_indicator, pyGe, pyLe_nan_right, pyLt_nan_right,
      pyLe_nan_left, pyLt_nan_left, Bool.false_and, Bool.and_false]
    rcases hd with h | h | h | h | h | h | h | h <;> simp [h]
  have hgA : App.get_indicator label PyFloat.nan = ("red", "Critical") := by
    have hd := hkwA
    simp only [App.cardKw, List.any_cons, List.any_nil, Bool.or_false,
      Bool.or_eq_true] at hd
    simp only [App.get_indicator, pyGe, pyLe_nan_right, pyLt_nan_right,
      pyLe_nan_left, pyLt_nan_left, Bool.false_and, Bool.and_false]
    rcases hd with h | h | h | h | h <;> simp [h]
  refine ⟨hm, ?_, ?_, by decide⟩
  · simp [DC.buildCards, hkwD, hm, hgD]
  · simp [App.buildCards, hkwA, hm, hgA]

/-- C2 witness: the all-missing "temp" column, via `C2_amended_allmissing`. -/
theorem C2_witness :
    seriesMean [PyFloat.nan] = PyFloat.nan
    ∧ DC.buildCards ⟨[("temp", [PyFloat.nan])]⟩ = [⟨"temp", PyFloat.nan, "red", "Critical"⟩]
    ∧ App.buildCards ⟨[("temp", [PyFloat.nan])]⟩ = [⟨"temp", PyFloat.nan, "red", "Critical"⟩]
    ∧ PyFloat.nan ≠ PyFloat.num 0 :=
  C2_amended_allmissing "temp" [PyFloat.nan] (by simp) (by decide) (by decide)

/-- C1 counterexample: a payload whose base64 body is malformed (here a
single data character) makes `parse_contents` raise `binascii.Error`
uncaught — the `b64decode` call sits before the `try` block — instead of
returning the `FileParseError`-style `(None, message)` result. -/
theorem C1_counterexample :
    parse_contents envFail "data:text/csv;base64,A" "data.csv" =
      .error (.binasciiError
        "Invalid base64-encoded string: number of data characters cannot be 1 more than a multiple of 4") := by
  rfl

/-- C1 amended: once the payload splits at commas into exactly two parts and
the base64 body decodes, any exception raised while reading the bytes as CSV
or as a spreadsheet is caught and surfaced as the `(None, "⚠️ Error reading
file: <cause>")` result with no table; but a malformed base64 body raises an
uncaught exception out of `parse_contents`. -/
theorem C1_amended_parse (env : Env) (contents filename ct cs : String)
    (hsplit : pySplitComma contents = [ct, cs]) :
    (∀ bs e, b64decode cs = Except.ok bs → strEndsWith filename ".csv" = true →
       env.read_csv bs = Except.error e →
       parse_contents env contents filename =
         .ok (.error ("⚠️ Error reading file: " ++ e)))
    ∧ (∀ bs e, b64decode cs = Except.ok bs → strEndsWith filename ".csv" = false →
       (strEndsWith filename ".xls" = true ∨ strEndsWith filename ".xlsx" = true) →
       env.read_excel bs = Except.error e →
       parse_contents env contents filename =
         .ok (.error ("⚠️ Error reading file: " ++ e)))
    ∧ (∀ exc, b64decode cs = Except.error exc →
       parse_contents env contents filename = .error exc) := by
  refine ⟨fun bs e hb hcsv hr => ?_, fun bs e hb hcsv hxl hr => ?_, fun exc hb => ?_⟩
  · simp [parse_contents, hsplit, hb, hcsv, hr]
  · rcases hxl with h | h <;> simp [parse_contents, hsplit, hb, hcsv, h, hr]
  · simp [parse_contents, hsplit, hb]

/-- C1 witness: a well-formed payload with a raising CSV reader, via
`C1_amended_parse`. -/
theorem C1_witness :
    parse_contents envFail "x,aGk=" "a.csv" =
      .ok (.error ("⚠️ Error reading file: " ++ "parse failure")) :=
  (C1_amended_parse envFail "x,aGk=" "a.csv" "x" "aGk=" rfl).1
    [104, 105] "parse failure" rfl rfl rfl

/-- C6: for a payload that splits and decodes, a filename ending in none of
.csv/.xls/.xlsx yields the UnsupportedFileType message carrying the
filename, and both callbacks return it with no table, no cards and a blank
figure. -/
theorem C6_unsupported (env : Env) (contents filename ct cs : String) (bs : List Nat)
    (hsplit : pySplitComma contents = [ct, cs])
    (hb64 : b64decode cs = Except.ok bs)
    (h1 : strEndsWith filename ".csv" = false)
    (h2 : strEndsWith filename ".xls" = false)
    (h3 : strEndsWith filename ".xlsx" = false) :
    parse_contents env contents filename =
      .ok (.error ("❌ Unsupported file type: " ++ filename))
    ∧ App.update_dashboard env (some contents) filename =
        .ok (.text ("❌ Unsupported file type: " ++ filename), .text "", .text "", .scatter)
    ∧ DC.update_dashboard env (some contents) filename =
        .ok (.text ("❌ Unsupported file type: " ++ filename), .text "", .text "", .scatter) := by
  have hp : parse_contents env contents filename =
      .ok (.error ("❌ Unsupported file type: " ++ filename)) := by
    simp [parse_contents, hsplit, hb64, h1, h2, h3]
  exact ⟨hp, by simp [App.update_dashboard, hp], by simp [DC.update_dashboard, hp]⟩

/-- C6 witness: uploading `data.txt`, via `C6_unsupported`. -/
theorem C6_witness :
    parse_contents envFail "data:text/plain;base64,aGk=" "data.txt" =
      .ok (.error ("❌ Unsupported file type: " ++ "data.txt"))
    ∧ App.update_dashboard envFail (some "data:text/plain;base64,aGk=") "data.txt" =
        .ok (.text ("❌ Unsupported file type: " ++ "data.txt"), .text "", .text "", .scatter)
    ∧ DC.update_dashboard envFail (some "data:text/plain;base64,aGk=") "data.txt" =
        .ok (.text ("❌ Unsupported file type: " ++ "data.txt"), .text "", .text "", .scatter) :=
  C6_unsupported envFail "data:text/plain;base64,aGk=" "data.txt"
    "data:text/plain;base64" "aGk=" [104, 105] rfl rfl rfl rfl rfl

/-- The function `List.find?` returns exactly the first element satisfying the predicate: the
list splits as a prefix of non-matching elements, the result, and a rest. -/
theorem findFirst_characterization {α : Type} (p : α → Bool) (l : List α) (a : α) :
    l.find? p = some a ↔
      p a = true ∧ ∃ pre post, l = pre ++ a :: post ∧ ∀ x ∈ pre, p x = false := by
  induction l with
  | nil => simp
  | cons b t ih =>
    by_cases hb : p b = true
    · rw [List.find?_cons_of_pos _ hb]
      constructor
      · intro h
        rw [Option.some_inj] at h
        subst h
        exact ⟨hb, [], t, rfl, by simp⟩
      · rintro ⟨hpa, pre, post, heq, hall⟩
        match pre, heq, hall with
        | [], heq, hall =>
          rw [Option.some_inj]
          exact ((List.cons.injEq _ _ _ _).mp heq).1
        | c :: pre', heq, hall =>
          have hbc : b = c := ((List.cons.injEq _ _ _ _).mp heq).1
          have hfc := hall c (List.mem_cons_self c pre')
          rw [← hbc, hb] at hfc
          cases hfc
    · have hb' : p b = false := by
        cases h : p b
        · rfl
        · exact absurd h hb
      rw [List.find?_cons_of_neg _ (by simp [hb'])]
      rw [ih]
      constructor
      · rintro ⟨hpa, pre, post, heq, hall⟩
        refine ⟨hpa, b :: pre, post, by rw [heq]; rfl, ?_⟩
        intro x hx
        rcases List.mem_cons.mp hx with hx | hx
        · rw [hx]; exact hb'
        · exact hall x hx
      · rintro ⟨hpa, pre, post, heq, hall⟩
        match pre, heq, hall with
        | [], heq, hall =>
          have hba : b = a := ((List.cons.injEq _ _ _ _).mp heq).1
          rw [hba, hpa] at hb'
          cases hb'
        | c :: pre', heq, hall =>
          refine ⟨hpa, pre', post, ((List.cons.injEq _ _ _ _).mp heq).2, ?_⟩
          exact fun x hx => hall x (List.mem_cons_of_mem c hx)

/-- The function `List.find?` returns `none` exactly when no element satisfies the
predicate. -/
theorem findNone_characterization {α : Type} (p : α → Bool) (l : List α) :
    l.find? p = none ↔ ∀ x ∈ l, p x = false := by
  induction l with
  | nil => simp
  | cons b t ih =>
    by_cases hb : p b = true
    · rw [List.find?_cons_of_pos _ hb]
      constructor
      · intro h
        exact Option.noConfusion h
      · intro hall
        rw [hall b (List.mem_cons_self b t)] at hb
        exact Bool.noConfusion hb
    · have hb' : p b = false := by
        cases h : p b
        · rfl
        · exact absurd h hb
      rw [List.find?_cons_of_neg _ (by simp [hb'])]
      rw [ih]
      constructor
      · intro hall x hx
        rcases List.mem_cons.mp hx with hx | hx
        · rw [hx]; exact hb'
        · exact hall x hx
      · exact fun hall x hx => hall x (List.mem_cons_of_mem b hx)

/-- C7: the DC column inference returns, for time/lat/lon, the first label
satisfying the respective predicate (`none` when no label does); the
parameter columns are exactly the keyword-matching labels in original
column order; the primary parameter column is the head of that list; and the
concrete example of the spec infers as claimed. -/
theorem C7_column_inference :
    (∀ labels c, DC.inferTime labels = some c ↔
       DC.timePred c = true
       ∧ ∃ pre post, labels = pre ++ c :: post ∧ ∀ x ∈ pre, DC.timePred x = false)
    ∧ (∀ labels, DC.inferTime labels = none ↔ ∀ c ∈ labels, DC.timePred c = false)
    ∧ (∀ labels c, DC.inferLat labels = some c ↔
       DC.latPred c = true
       ∧ ∃ pre post, labels = pre ++ c :: post ∧ ∀ x ∈ pre, DC.latPred x = false)
    ∧ (∀ labels, DC.inferLat labels = none ↔ ∀ c ∈ labels, DC.latPred c = false)
    ∧ (∀ labels c, DC.inferLon labels = some c ↔
       DC.lonPred c = true
       ∧ ∃ pre post, labels = pre ++ c :: post ∧ ∀ x ∈ pre, DC.lonPred x = false)
    ∧ (∀ labels, DC.inferLon labels = none ↔ ∀ c ∈ labels, DC.lonPred c = false)
    ∧ (∀ labels c, c ∈ DC.inferParams labels ↔ c ∈ labels ∧ DC.paramPred c = true)
    ∧ (∀ labels, (DC.inferParams labels).Sublist labels)
    ∧ (∀ labels, DC.primaryParam labels = (DC.inferParams labels).head?)
    ∧ (DC.inferTime ["timestamp", "lat", "lon", "heartrate"] = some "timestamp"
       ∧ DC.inferLat ["timestamp", "lat", "lon", "heartrate"] = some "lat"
       ∧ DC.inferLon ["timestamp", "lat", "lon", "heartrate"] = some "lon"
       ∧ DC.inferParams ["timestamp", "lat", "lon", "heartrate"] = ["heartrate"]
       ∧ DC.primaryParam ["timestamp", "lat", "lon", "heartrate"] = some "heartrate") :=
  ⟨fun labels c => findFirst_characterization DC.timePred labels c,
   fun labels => findNone_characterization DC.timePred labels,
   fun labels c => findFirst_characterization DC.latPred labels c,
   fun labels => findNone_characterization DC.latPred labels,
   fun labels c => findFirst_characterization DC.lonPred labels c,
   fun labels => findNone_characterization DC.lonPred labels,
   fun labels c => by simp [DC.inferParams, List.mem_filter],
   fun labels => List.filter_sublist labels,
   fun labels => rfl,
   by decide, by decide, by decide, by decide, by decide⟩

/-- C7 witness: the concrete inference example, via `C7_column_inference`. -/
theorem C7_witness :
    DC.inferTime ["timestamp", "lat", "lon", "heartrate"] = some "timestamp"
    ∧ DC.inferLat ["timestamp", "lat", "lon", "heartrate"] = some "lat"
    ∧ DC.inferLon ["timestamp", "lat", "lon", "heartrate"] = some "lon"
    ∧ DC.inferParams ["timestamp", "lat", "lon", "heartrate"] = ["heartrate"]
    ∧ DC.primaryParam ["timestamp", "lat", "lon", "heartrate"] = some "heartrate" :=
  C7_column_inference.2.2.2.2.2.2.2.2.2

/-- On the option results of the DC inference, Python truthiness coincides
with presence: an inferred label is never the empty string. -/
theorem truthy_inferTime (ls : List String) :
    truthy (DC.inferTime ls) = (DC.inferTime ls).isSome := by
  cases h : DC.inferTime ls with
  | none => rfl
  | some c =>
    have hp : DC.timePred c = true := List.find?_some h
    have hc : c ≠ "" := by
      rintro rfl
      rw [show DC.timePred "" = false by decide] at hp
      cases hp
    simp [truthy, hc]

/-- Truthiness/presence agreement for the latitude column. -/
theorem truthy_inferLat (ls : List String) :
    truthy (DC.inferLat ls) = (DC.inferLat ls).isSome := by
  cases h : DC.inferLat ls with
  | none => rfl
  | some c =>
    have hp : DC.latPred c = true := List.find?_some h
    have hc : c ≠ "" := by
      rintro rfl
      rw [show DC.latPred "" = false by decide] at hp
      cases hp
    simp [truthy, hc]

/-- Truthiness/presence agreement for the longitude column. -/
theorem truthy_inferLon (ls : List String) :
    truthy (DC.inferLon ls) = (DC.inferLon ls).isSome := by
  cases h : DC.inferLon ls with
  | none => rfl
  | some c =>
    have hp : DC.lonPred c = true := List.find?_some h
    have hc : c ≠ "" := by
      rintro rfl
      rw [show DC.lonPred "" = false by decide] at hp
      cases hp
    simp [truthy, hc]

/-- Truthiness/presence agreement for the primary parameter column. -/
theorem truthy_primaryParam (ls : List String) :
    truthy (DC.primaryParam ls) = (DC.primaryParam ls).isSome := by
  cases h : DC.primaryParam ls with
  | none => rfl
  | some c =>
    have hc' : c ∈ DC.inferParams ls := by
      unfold DC.primaryParam at h
      cases hl : DC.inferParams ls with
      | nil => rw [hl] at h; cases h
      | cons x xs =>
        rw [hl] at h
        have h' : some x = some c := h
        rw [← Option.some_inj.mp h']
        exact List.mem_cons_self x xs
    have hp : DC.paramPred c = true := (List.mem_filter.mp hc').2
    have hc : c ≠ "" := by
      rintro rfl
      rw [show DC.paramPred "" = false by decide] at hp
      cases hp
    simp [truthy, hc]

/-- An option that is present equals `some` of its `getD` value. -/
theorem some_getD_of_isSome {α : Type} {o : Option α} (h : o.isSome = true) (d : α) :
    some (o.getD d) = o := by
  cases o with
  | none => cases h
  | some a => rfl

/-- The function `List.map` acts index-wise. -/
theorem get?_map_helper {α β : Type} (f : α → β) (l : List α) (i : ℕ) :
    (l.map f).get? i = (l.get? i).map f := by
  induction l generalizing i with
  | nil => cases i <;> rfl
  | cons a t ih =>
    cases i with
    | zero => rfl
    | succ n => exact ih n

/-- C8: the DC callback builds the animated map exactly when the time,
latitude, longitude and primary parameter columns are all present, and then
every row is tagged independently by classifying the own raw value of that
row in the primary parameter column (not the column mean) with the label of
that column as category. -/
theorem C8_per_row_map :
    (∀ df : Table, (DC.buildFig df).isMapbox =
       ((DC.inferLat (labelsOf df)).isSome && (DC.inferLon (labelsOf df)).isSome
        && (DC.inferTime (labelsOf df)).isSome && (DC.primaryParam (labelsOf df)).isSome))
    ∧ (∀ df la lo ti co tags, DC.buildFig df = Fig.scatterMapbox la lo ti co tags →
       some co = DC.primaryParam (labelsOf df)
       ∧ tags = (getCol df co).map (fun v => DC.get_indicator co v)
       ∧ ∀ i, tags.get? i = ((getCol df co).get? i).map (fun v => DC.get_indicator co v)) := by
  constructor
  · intro df
    simp only [DC.buildFig]
    rw [truthy_inferLat, truthy_inferLon, truthy_inferTime, truthy_primaryParam]
    by_cases hc : ((DC.inferLat (labelsOf df)).isSome && (DC.inferLon (labelsOf df)).isSome
        && (DC.inferTime (labelsOf df)).isSome && (DC.primaryParam (labelsOf df)).isSome) = true
    · rw [if_pos hc, hc]; rfl
    · rw [if_neg hc]
      have hrhs : ((DC.inferLat (labelsOf df)).isSome && (DC.inferLon (labelsOf df)).isSome
          && (DC.inferTime (labelsOf df)).isSome && (DC.primaryParam (labelsOf df)).isSome)
          = false := by
        cases h : ((DC.inferLat (labelsOf df)).isSome && (DC.inferLon (labelsOf df)).isSome
            && (DC.inferTime (labelsOf df)).isSome && (DC.primaryParam (labelsOf df)).isSome) with
        | false => rfl
        | true => exact absurd h hc
      rw [hrhs]
      split_ifs <;> rfl
  · intro df la lo ti co tags h
    simp only [DC.buildFig] at h
    by_cases hc : (truthy (DC.inferLat (labelsOf df)) && truthy (DC.inferLon (labelsOf df))
        && truthy (DC.inferTime (labelsOf df)) && truthy (DC.primaryParam (labelsOf df))) = true
    · rw [if_pos hc] at h
      have hps : (DC.primaryParam (labelsOf df)).isSome = true := by
        rw [← truthy_primaryParam]
        simp only [Bool.and_eq_true] at hc
        exact hc.2
      injection h with hla hlo hti hco htags
      have hsome : some co = DC.primaryParam (labelsOf df) := by
        rw [← hco]
        exact some_getD_of_isSome hps ""
      refine ⟨hsome, ?_, ?_⟩
      · rw [← hco, ← htags]
      · intro i
        rw [← hco, ← htags]
        exact get?_map_helper _ _ i
    · rw [if_neg hc] at h
      by_cases ht : truthy (DC.inferTime (labelsOf df)) = true
      · rw [if_pos ht] at h
        exact Fig.noConfusion h
      · rw [if_neg ht] at h
        exact Fig.noConfusion h

/-- C8 witness: the 3-row heart-rate table, via `C8_per_row_map`: the map is
built and the per-row tiers are Normal, Caution, Critical in row order. -/
theorem C8_witness :
    (DC.buildFig gpsTable).isMapbox =
      ((DC.inferLat (labelsOf gpsTable)).isSome && (DC.inferLon (labelsOf gpsTable)).isSome
        && (DC.inferTime (labelsOf gpsTable)).isSome && (DC.primaryParam (labelsOf gpsTable)).isSome)
    ∧ [("green", "Normal"), ("orange", "Caution"), ("red", "Critical")] =
        (getCol gpsTable "heart_rate").map (fun v => DC.get_indicator "heart_rate" v) := by
  refine ⟨C8_per_row_map.1 gpsTable, ?_⟩
  exact (C8_per_row_map.2 gpsTable "lat" "lon" "time" "heart_rate"
    [("green", "Normal"), ("orange", "Caution"), ("red", "Critical")] (by decide)).2.1

end DogDash
